import Mathlib

/-!
Verification development for the GAR converter pipeline (`converter.py`,
`db_utils.py`).  The definitions below are a shallow embedding of the
pipeline's pure logic: dotted-path octet handling, the retry loop of
`GarConverter.execute_with_retry`, the batch partitioning and result
collection of the three parallel stages, the per-batch record construction
of the street and building writers, the reconciliation synthesis of
`_process_missing_localities`, the upsert semantics of the target tables
(`INSERT ... ON DUPLICATE KEY UPDATE` keyed on the unique `objectid`), and
the success/failure decision of `run_conversion`.
-/

namespace Gar

/-! ## Dotted-path octets

`octets` models Python `s.split(".")` and the octet lists produced by the
SQL `SUBSTRING_INDEX(... , '.', n)` expressions in `converter.py`. -/

/-- Split a character list on the dot separator, accumulator style; mirrors
Python `str.split(".")`, which yields `[""]` on the empty string. -/
def splitDotAux : List Char → List Char → List (List Char)
  | [], acc => [acc.reverse]
  | c :: cs, acc =>
    if c = '.' then acc.reverse :: splitDotAux cs [] else splitDotAux cs (c :: acc)

/-- The octet list of a dotted path, as Python `path.split(".")`. -/
def octets (s : String) : List String :=
  (splitDotAux s.data []).map String.mk

/-- Join a list of octets with the dot separator, as Python `".".join(l)`. -/
def joinDot : List String → String
  | [] => ""
  | [x] => x
  | x :: y :: xs => x ++ "." ++ joinDot (y :: xs)

/-- Whether `p` is an initial segment of `s`, character by character. -/
def strStarts (p s : String) : Bool :=
  s.data.take p.data.length == p.data

/-- Drop the first `n` characters of a string. -/
def dropChars (s : String) (n : Nat) : String :=
  String.mk (s.data.drop n)

/-- `SUBSTRING_INDEX(s, '.', n)` for positive `n`: the first `n` octets of
`s`, rejoined with dots (MySQL returns the whole string when `n` is at least
the octet count). -/
def substringIndexPos (s : String) (n : Nat) : String :=
  joinDot ((octets s).take n)

/-- `SUBSTRING_INDEX(s, '.', -1)`: the last octet of `s`. -/
def lastOctet (s : String) : String :=
  ((octets s).getLast?).getD s

/-- The nested `SUBSTRING_INDEX(SUBSTRING_INDEX(s, '.', n), '.', -1)` used
throughout `converter.py` to read the `n`-th octet of a hierarchy path. -/
def sqlOctet (s : String) (n : Nat) : String :=
  lastOctet (substringIndexPos s n)

/-- The SQL pattern `PATH LIKE '<basePath>.%.%.%'` from
`process_streets_parallel` and `process_buildings_parallel`: the path starts
with `basePath` followed by a dot, and the remainder splits into at least
three octets. -/
def likeBaseThreeDeep (basePath path : String) : Bool :=
  strStarts (basePath ++ ".") path &&
    decide (3 ≤ (octets (dropChars path (basePath.length + 1))).length)

/-! ## PathCodec (spec §4.1) -/

/-- Failure modes of the spec's PathCodec. -/
inductive PathError where
  | malformed
  | outOfRange
deriving Repr, DecidableEq

/-- Modelled from the spec: the PathCodec contract `depthOf(path, basePath)`
of §4.1.  The source has no standalone codec; `converter.py` reads octets
inline via SQL `SUBSTRING_INDEX` and Python `PATH.split(".")`.  Per the spec,
`depthOf` returns the number of octets in `path` beyond `basePath`, failing
with `MalformedPath` when `path` does not start with `basePath`. -/
def depthOf (path basePath : String) : Except PathError Nat :=
  if strStarts basePath path then
    Except.ok ((octets path).length - (octets basePath).length)
  else
    Except.error PathError.malformed

/-- Modelled from the spec: the PathCodec contract `octetAt(path, n)` of
§4.1: the `n`-th octet (1-based, counting from the root) of the dot-split
path, failing with `OutOfRange` when `n` exceeds the octet count. -/
def octetAt (path : String) (n : Nat) : Except PathError String :=
  if (octets path).length < n then Except.error PathError.outOfRange
  else if n = 0 then Except.error PathError.outOfRange
  else Except.ok ((octets path).getD (n - 1) "")

/-! ## Retry loop (`GarConverter.execute_with_retry`, converter.py 239-250)

The Python loop runs `execute_query` up to `max_retries` times; on an
exception it increments the counter, re-raises once the counter reaches
`max_retries`, and otherwise sleeps one second before the next attempt.  We
model the operation as a function from the attempt index to an `Except`
outcome and record, besides the result, how many attempts ran and how many
one-second sleeps happened. -/

/-- How the retry wrapper terminates: a successful result, a re-raised
exception, or — only possible when `maxRetries = 0` — falling out of the
`while` loop (Python then returns `None` implicitly). -/
inductive RetryOutcome (E A : Type) where
  | ok (a : A)
  | raised (e : E)
  | fellThrough
deriving Repr, DecidableEq

/-- A run of the retry wrapper: final outcome, attempts executed, and
one-second sleeps performed. -/
structure RetryRun (E A : Type) where
  outcome : RetryOutcome E A
  attempts : Nat
  sleeps : Nat
deriving Repr, DecidableEq

/-- One step of the `while retries < max_retries` loop: `i` is the current
value of `retries`, `fuel = maxRetries - i` bounds the remaining
iterations. -/
def retryGo {E A : Type} (op : Nat → Except E A) (maxRetries : Nat) :
    Nat → Nat → RetryRun E A
  | _, 0 => ⟨RetryOutcome.fellThrough, 0, 0⟩
  | i, fuel + 1 =>
    match op i with
    | Except.ok a => ⟨RetryOutcome.ok a, 1, 0⟩
    | Except.error e =>
      if maxRetries ≤ i + 1 then ⟨RetryOutcome.raised e, 1, 0⟩
      else
        let rest := retryGo op maxRetries (i + 1) fuel
        ⟨rest.outcome, rest.attempts + 1, rest.sleeps + 1⟩

/-- `GarConverter.execute_with_retry`: run the operation with at most
`maxRetries` attempts (default 3 at every call site). -/
def execute_with_retry {E A : Type} (op : Nat → Except E A)
    (maxRetries : Nat) : RetryRun E A :=
  retryGo op maxRetries 0 maxRetries

/-! ## `execute_query` (db_utils.py 40-51)

`execute_query` runs the statement; an `SQLAlchemyError` is caught, printed
and turned into a `None` return — it does not propagate.  Any other
exception propagates to the caller. -/

/-- Possible database-layer outcomes of running one statement. -/
inductive DbOutcome (A : Type) where
  | ok (a : A)
  | sqlAlchemyError (msg : String)
  | otherException (msg : String)
deriving Repr, DecidableEq

/-- `db_utils.execute_query`: success returns the result set, an
`SQLAlchemyError` is swallowed into `none`, any other exception is
raised. -/
def execute_query {A : Type} (o : DbOutcome A) : Except String (Option A) :=
  match o with
  | DbOutcome.ok a => Except.ok (some a)
  | DbOutcome.sqlAlchemyError _ => Except.ok none
  | DbOutcome.otherException m => Except.error m

/-! ## Batch scheduling and result collection

Each stage splits its id list as `ids[i:i+batch_size]` for
`i in range(0, len(ids), batch_size)`, submits every batch to the thread
pool, and in the `as_completed` loop extends `processed_ids` with each
future's result, catching and logging a future's exception without touching
the other futures (converter.py 277-317, 383-416, 602-634). -/

/-- The batch list `[ids[i:i+n] for i in range(0, len(ids), n)]`, computed
with an explicit fuel (any fuel at least `ids.length` is enough once
`0 < n`). -/
def makeBatchesAux {α : Type} (n : Nat) : Nat → List α → List (List α)
  | 0, _ => []
  | _ + 1, [] => []
  | fuel + 1, x :: xs =>
    (x :: xs).take n :: makeBatchesAux n fuel ((x :: xs).drop n)

/-- Partition an id list into consecutive batches of at most `n` ids. -/
def makeBatches {α : Type} (n : Nat) (l : List α) : List (List α) :=
  makeBatchesAux n l.length l

/-- The `as_completed` collection loop of a stage: extend the processed
list with every future's result, skip (log only) every future that raised. -/
def collectStageResults {Id : Type} (rs : List (Except String (List Id))) :
    List Id :=
  rs.foldl
    (fun acc r =>
      match r with
      | Except.ok ids => acc ++ ids
      | Except.error _ => acc)
    []

/-- Run a stage's worker over every batch and concatenate the processed
subsets (the exception-free special case of the collection loop). -/
def runStageBatches {α Id : Type} (fn : List α → List Id)
    (batches : List (List α)) : List Id :=
  (batches.map fn).flatten

/-- `missing_ids = [id for id in ids if id not in processed_ids]`. -/
def computeMissing {Id : Type} [DecidableEq Id] (ids processed : List Id) :
    List Id :=
  ids.filter (fun i => decide (i ∉ processed))

/-! ## Source rows and `run_conversion` -/

/-- A row of the source `mun_hierarchy` table (the columns the pipeline
reads). -/
structure HierRow where
  objectid : Nat
  path : String
  isactive : Bool
deriving Repr, DecidableEq

/-- The decision logic of `GarConverter.run_conversion` (converter.py
157-237): a `None` fetch of the stage-1 object list fails the run, an empty
object list fails the run, a zero locality count fails the run, a zero
street count fails the run; the building count is only reported. -/
def run_conversion (fetchResult : Option (List HierRow))
    (localitiesCount streetsCount buildingsCount : Nat) : Bool :=
  match fetchResult with
  | none => false
  | some rows =>
    if rows.length = 0 then false
    else if localitiesCount = 0 then false
    else if streetsCount = 0 then false
    else true

/-! ## Target rows and upsert semantics

Each target table has `UNIQUE KEY (objectid)` and every write is
`INSERT ... ON DUPLICATE KEY UPDATE` setting all non-key data columns
(converter.py 906-923, 451-472, 697-724, 852-862): a row with a fresh
`objectid` is appended, a duplicate `objectid` has its data columns
overwritten in place. -/

/-- A row of the target `localities` table (data columns). -/
structure LocalityRow where
  objectid : Nat
  objectguid : String
  name : String
  typename : String
  path_octets : String
deriving Repr, DecidableEq

/-- A row of the target `streets` table (data columns). -/
structure StreetRow where
  objectid : Nat
  locality_id : Nat
  objectguid : String
  name : String
  typename : String
  path_octets : String
deriving Repr, DecidableEq

/-- A row of the target `buildings` table (data columns). -/
structure BuildingRow where
  objectid : Nat
  street_id : Nat
  objectguid : String
  house_num : String
  add_num1 : String
  add_num2 : String
  housetype : Option Int
  path_octets : String
deriving Repr, DecidableEq

/-- `INSERT ... ON DUPLICATE KEY UPDATE` against a table with a unique key:
if the key is present, replace that row's data; otherwise append. -/
def upsertBy {α : Type} (key : α → Nat) (t : List α) (r : α) : List α :=
  if t.any (fun x => key x == key r) then
    t.map (fun x => if key x == key r then r else x)
  else
    t ++ [r]

/-- Upsert every row of a batch in order, as the per-batch write loops
do. -/
def upsertBatchBy {α : Type} (key : α → Nat) (t : List α) (rs : List α) :
    List α :=
  rs.foldl (upsertBy key) t

/-! ## Street stage input (`process_streets_parallel`, converter.py 319-416)

The stage loads `{locality objectid → target row id}` from the target, then
takes the DISTINCT `(octet 3, octet 4)` pairs of active hierarchy rows whose
path matches `'<basePath>.%.%.%'`, and keeps only pairs whose locality id is
a key of the map (`if locality_id not in localities: continue`). -/

/-- The distinct `(locality_id, street_id)` octet pairs the street stage
derives from the source hierarchy. -/
def streetPairsRaw (basePath : String) (rows : List HierRow) :
    List (String × String) :=
  ((rows.filter (fun r => r.isactive && likeBaseThreeDeep basePath r.path)).map
    (fun r => (sqlOctet r.path 3, sqlOctet r.path 4))).dedup

/-- The street stage's input after the restriction to localities present in
the target map; pairs with an absent locality are dropped without error. -/
def streetStageInput (basePath : String) (rows : List HierRow)
    (locMap : List (String × Nat)) : List (String × String) :=
  (streetPairsRaw basePath rows).filter (fun p => (locMap.lookup p.1).isSome)

/-- A row of the source `addr_obj` table joined to `mun_hierarchy` (the
columns the locality and street writers read). -/
structure AddrRow where
  objectid : Nat
  objectguid : String
  name : String
  typename : String
  path : String
deriving Repr, DecidableEq

/-- The street rows `_process_street_batch` writes for one batch of fetched
source rows: only streets whose objectid is a key of the street→locality
map are written, with `locality_id` taken from the map. -/
def process_street_batch_records (fetched : List AddrRow)
    (localityIds : List (String × Nat)) : List StreetRow :=
  fetched.filterMap (fun st =>
    match localityIds.lookup (toString st.objectid) with
    | some lid =>
      some ⟨st.objectid, lid, st.objectguid, st.name, st.typename, st.path⟩
    | none => none)

/-! ## Building batch records (`_process_building_batch`, converter.py
636-733) -/

/-- A row of the source `houses` table joined to `mun_hierarchy`. -/
structure HouseRow where
  objectid : Nat
  objectguid : String
  housenum : Option String
  housetype : Option Int
  addnum1 : Option String
  addnum2 : Option String
  path : String
deriving Repr, DecidableEq

/-- The building records `_process_building_batch` assembles before the
batched insert: null house numbers become the empty string
(`building.HOUSENUM or ""`), `housetype` passes through unchanged, and
`street_id` is the target street row id looked up in the map. -/
def process_building_batch_records (fetched : List HouseRow)
    (streetIds : List (String × Nat)) : List BuildingRow :=
  fetched.filterMap (fun b =>
    match streetIds.lookup (toString b.objectid) with
    | some sid =>
      some
        { objectid := b.objectid
          street_id := sid
          objectguid := b.objectguid
          house_num := b.housenum.getD ""
          add_num1 := b.addnum1.getD ""
          add_num2 := b.addnum2.getD ""
          housetype := b.housetype
          path_octets := b.path }
    | none => none)

/-! ## Reconciliation (`_process_missing_localities`, converter.py 735-872)

For a missing locality id with an active hierarchy row but no `addr_obj`
row, the code looks up the parent path (all octets but the last), infers a
typename from the parent's typename, and falls back to a synthesized name
and a deterministic placeholder GUID. -/

/-- Python `str.lower()` restricted to ASCII letters and the Russian
Cyrillic alphabet (the only letters the typename heuristics touch). -/
def lowerChar (c : Char) : Char :=
  if 'A' ≤ c ∧ c ≤ 'Z' then Char.ofNat (c.toNat + 32)
  else if 'А' ≤ c ∧ c ≤ 'Я' then Char.ofNat (c.toNat + 32)
  else if c = 'Ё' then 'ё'
  else c

/-- Lowercase a string character by character. -/
def lowerStr (s : String) : String :=
  String.mk (s.data.map lowerChar)

/-- Whether `pat` occurs at the head of `cs`. -/
def matchesAt : List Char → List Char → Bool
  | [], _ => true
  | _ :: _, [] => false
  | p :: ps, c :: cs => p == c && matchesAt ps cs

/-- Whether `pat` occurs contiguously anywhere in `cs` (Python `in`). -/
def containsSubList (pat : List Char) : List Char → Bool
  | [] => matchesAt pat []
  | c :: cs => matchesAt pat (c :: cs) || containsSubList pat cs

/-- Python substring membership `pat in s`. -/
def containsSub (s pat : String) : Bool :=
  containsSubList pat.data s.data

/-- Python `f"{n:012d}"`: the decimal digits of `n`, zero-padded on the
left to width 12. -/
def pad12 (n : Nat) : String :=
  let s := toString n
  String.mk (List.replicate (12 - s.length) '0') ++ s

/-- The fallback GUID `f"00000000-0000-0000-0000-{objectid:012d}"`. -/
def placeholderGuid (objectid : Nat) : String :=
  "00000000-0000-0000-0000-" ++ pad12 objectid

/-- The parent lookup result: `addr_obj` name and typename of the row whose
hierarchy path is the parent path. -/
structure ParentRec where
  name : String
  typename : String
deriving Repr, DecidableEq

/-- The typename heuristic of `_process_missing_localities` 809-818: with
no parent row the typename stays the default; otherwise a parent typename
containing "город" gives "микрорайон", else one containing "район" gives
"поселок", else "населенный пункт".  Containment is checked on the
lowercased parent typename. -/
def inferTypename (parent : Option ParentRec) : String :=
  match parent with
  | none => "неизвестно"
  | some p =>
    if containsSub (lowerStr p.typename) "город" then "микрорайон"
    else if containsSub (lowerStr p.typename) "район" then "поселок"
    else "населенный пункт"

/-- The parent path `".".join(PATH.split(".")[:-1])`: all octets but the
last. -/
def parentPath (path : String) : String :=
  joinDot ((octets path).dropLast)

/-- The locality record synthesized for a missing id (converter.py
820-850): name from `addr_obj` if found else `f"Объект {id}"`, GUID from
`addr_obj` if found else the deterministic placeholder, typename from the
parent heuristic, path from the hierarchy row. -/
def synthesizeLocality (mhObjectid : Nat) (mhPath : String)
    (parent : Option ParentRec) (nameRec : Option String)
    (guidRec : Option String) : LocalityRow :=
  { objectid := mhObjectid
    objectguid := guidRec.getD (placeholderGuid mhObjectid)
    name := nameRec.getD ("Объект " ++ toString mhObjectid)
    typename := inferTypename parent
    path_octets := mhPath }

end Gar

namespace Gar

/-- C9: path decoding — for every path that starts with `basePath`,
`depthOf` returns the octet count of the path minus the octet count of the
base; `octetAt "1.2.3.4.5" 3 = "3"`; and `octetAt` fails with `OutOfRange`
when `n` exceeds the octet count. -/
theorem C9_path_decoding :
    (∀ path basePath : String, strStarts basePath path = true →
      depthOf path basePath =
        Except.ok ((octets path).length - (octets basePath).length)) ∧
    octetAt "1.2.3.4.5" 3 = Except.ok "3" ∧
    (∀ (path : String) (n : Nat), (octets path).length < n →
      octetAt path n = Except.error PathError.outOfRange) := by
  refine ⟨?_, rfl, ?_⟩
  · intro path basePath h
    simp [depthOf, h]
  · intro path n h
    simp [octetAt, h]

/-- Witness for C9 at concrete inputs: `basePath = "1.2"`,
`path = "1.2.3.4.5"` gives depth `3`, and index `7` on a 3-octet path is out
of range. -/
theorem collect_step {Id : Type} (rs : List (Except String (List Id)))
    (acc : List Id) :
    rs.foldl
      (fun acc r =>
        match r with
        | Except.ok ids => acc ++ ids
        | Except.error _ => acc)
      acc = acc ++ collectStageResults rs := by
  induction rs generalizing acc with
  | nil => simp [collectStageResults]
  | cons r rs ih =>
    cases r with
    | ok ids =>
      show rs.foldl _ (acc ++ ids) = acc ++ collectStageResults (Except.ok ids :: rs)
      have hr : collectStageResults (Except.ok ids :: rs) = ids ++ collectStageResults rs := by
        show rs.foldl _ ([] ++ ids) = _
        rw [List.nil_append, ih]
      rw [ih, hr, List.append_assoc]
    | error e =>
      show rs.foldl _ acc = acc ++ collectStageResults (Except.error e :: rs)
      have hr : collectStageResults (Except.error e :: rs) = collectStageResults rs := rfl
      rw [ih, hr]

theorem collectStageResults_eq {Id : Type} (rs : List (Except String (List Id))) :
    collectStageResults rs = (rs.filterMap Except.toOption).flatten := by
  induction rs with
  | nil => rfl
  | cons r rs ih =>
    cases r with
    | ok ids =>
      have h : collectStageResults (Except.ok ids :: rs) = ids ++ collectStageResults rs := by
        show rs.foldl _ ([] ++ ids) = _
        rw [List.nil_append, collect_step]
      rw [h, ih]
      simp [Except.toOption]
    | error e =>
      have h : collectStageResults (Except.error e :: rs) = collectStageResults rs := rfl
      rw [h, ih]
      simp [Except.toOption]

theorem makeBatchesAux_flatten {α : Type} (n : Nat) (hn : 0 < n) :
    ∀ (fuel : Nat) (l : List α), l.length ≤ fuel →
      (makeBatchesAux n fuel l).flatten = l := by
  intro fuel
  induction fuel with
  | zero =>
    intro l hl
    have : l = [] := List.eq_nil_of_length_eq_zero (Nat.le_zero.mp hl)
    subst this
    rfl
  | succ fuel ih =>
    intro l hl
    cases l with
    | nil => rfl
    | cons x xs =>
      have hlen : ((x :: xs).drop n).length ≤ fuel := by
        rw [List.length_drop]
        have h1 : (x :: xs).length ≤ fuel + 1 := hl
        omega
      show ((x :: xs).take n :: makeBatchesAux n fuel ((x :: xs).drop n)).flatten = x :: xs
      rw [List.flatten_cons, ih _ hlen, List.take_append_drop]

theorem makeBatchesAux_batch_size {α : Type} (n : Nat) :
    ∀ (fuel : Nat) (l : List α) (b : List α),
      b ∈ makeBatchesAux n fuel l → b.length ≤ n := by
  intro fuel
  induction fuel with
  | zero =>
    intro l b hb
    exact absurd hb (by simp [makeBatchesAux])
  | succ fuel ih =>
    intro l b hb
    cases l with
    | nil => exact absurd hb (by simp [makeBatchesAux])
    | cons x xs =>
      rcases List.mem_cons.mp hb with h | h
      · subst h
        rw [List.length_take]
        exact Nat.min_le_left _ _
      · exact ih _ _ h

/-- C3: retry contract — `execute_with_retry` makes at most 3 attempts;
a success on attempt `k` stops with `k` attempts made and `k - 1` sleeps
(one after each failed attempt except none after a success); three failures
make exactly 3 attempts with 2 sleeps (no sleep after the last failure) and
re-raise the last failure. -/
theorem C3_retry_contract {E A : Type} (op : Nat → Except E A) :
    (execute_with_retry op 3).attempts ≤ 3 ∧
    (∀ a, op 0 = Except.ok a →
      execute_with_retry op 3 = ⟨RetryOutcome.ok a, 1, 0⟩) ∧
    (∀ e0 a, op 0 = Except.error e0 → op 1 = Except.ok a →
      execute_with_retry op 3 = ⟨RetryOutcome.ok a, 2, 1⟩) ∧
    (∀ e0 e1 a, op 0 = Except.error e0 → op 1 = Except.error e1 →
      op 2 = Except.ok a →
      execute_with_retry op 3 = ⟨RetryOutcome.ok a, 3, 2⟩) ∧
    (∀ e0 e1 e2, op 0 = Except.error e0 → op 1 = Except.error e1 →
      op 2 = Except.error e2 →
      execute_with_retry op 3 = ⟨RetryOutcome.raised e2, 3, 2⟩) := by
  refine ⟨?_, ?_, ?_, ?_, ?_⟩
  · rcases h0 : op 0 with e0 | a0 <;>
      rcases h1 : op 1 with e1 | a1 <;>
      rcases h2 : op 2 with e2 | a2 <;>
      simp [execute_with_retry, retryGo, h0, h1, h2]
  · intro a h0
    simp [execute_with_retry, retryGo, h0]
  · intro e0 a h0 h1
    simp [execute_with_retry, retryGo, h0, h1]
  · intro e0 e1 a h0 h1 h2
    simp [execute_with_retry, retryGo, h0, h1, h2]
  · intro e0 e1 e2 h0 h1 h2
    simp [execute_with_retry, retryGo, h0, h1, h2]

/-- Witness for C3: an operation that fails on every attempt is retried
exactly twice after the first attempt (3 attempts, 2 sleeps) and the third
failure is re-raised. -/
theorem C3_retry_contract_witness :
    execute_with_retry
        (fun i => (Except.error (toString i) : Except String Nat)) 3 =
      ⟨RetryOutcome.raised "2", 3, 2⟩ :=
  (C3_retry_contract
      (fun i => (Except.error (toString i) : Except String Nat))).2.2.2.2
    "0" "1" "2" rfl rfl rfl

/-- C2: batch isolation — the stage collection loop drops exactly the
failing futures: inserting a failing batch anywhere leaves the collected
ids of every sibling batch intact, and in general the collected result is
the concatenation of precisely the successful batches' id lists. -/
theorem C2_batch_isolation {Id : Type} (l1 l2 : List (Except String (List Id)))
    (e : String) :
    collectStageResults (l1 ++ Except.error e :: l2) =
      collectStageResults l1 ++ collectStageResults l2 ∧
    (∀ rs : List (Except String (List Id)),
      collectStageResults rs = (rs.filterMap Except.toOption).flatten) := by
  constructor
  · rw [collectStageResults_eq, collectStageResults_eq, collectStageResults_eq]
    simp [Except.toOption]
  · exact collectStageResults_eq

/-- C4: batch scheduling — the batches are consecutive chunks of at most
`n` ids whose concatenation is the input; the stage's processed result is
the union of the per-chunk results; `missing` is exactly input minus
processed. -/
theorem C4_batch_scheduling {α : Type} [DecidableEq α] (ids : List α)
    (n : Nat) (hn : 0 < n) (fn : List α → List α) (processed : List α) :
    (makeBatches n ids).flatten = ids ∧
    (∀ b ∈ makeBatches n ids, b.length ≤ n) ∧
    (∀ x, x ∈ runStageBatches fn (makeBatches n ids) ↔
      ∃ b ∈ makeBatches n ids, x ∈ fn b) ∧
    (∀ x, x ∈ computeMissing ids processed ↔ x ∈ ids ∧ x ∉ processed) := by
  refine ⟨makeBatchesAux_flatten n hn ids.length ids le_rfl,
    fun b hb => makeBatchesAux_batch_size n ids.length ids b hb, ?_, ?_⟩
  · intro x
    simp [runStageBatches, List.mem_flatten]
  · intro x
    simp [computeMissing, List.mem_filter]

/-- Witness for C4 at `ids = [1,2,3]`, `n = 2`, identity worker,
`processed = [1]`. -/
theorem C4_batch_scheduling_witness :
    0 < 2 ∧
    ((makeBatches 2 [1, 2, 3]).flatten = [1, 2, 3] ∧
     (∀ b ∈ makeBatches 2 [1, 2, 3], b.length ≤ 2) ∧
     (∀ x, x ∈ runStageBatches id (makeBatches 2 [1, 2, 3]) ↔
       ∃ b ∈ makeBatches 2 [1, 2, 3], x ∈ id b) ∧
     (∀ x, x ∈ computeMissing [1, 2, 3] [1] ↔ x ∈ [1, 2, 3] ∧ x ∉ [1])) :=
  ⟨by decide, C4_batch_scheduling [1, 2, 3] 2 (by decide) id [1]⟩

/-- C5: zero-count abort policy — `run_conversion` fails whenever the
locality count is zero and whenever the street count is zero, but a zero
building count after nonzero localities and streets still completes
successfully. -/
theorem C5_zero_count_abort (fr : Option (List HierRow)) (lc sc bc : Nat) :
    run_conversion fr 0 sc bc = false ∧
    run_conversion fr lc 0 bc = false ∧
    (∀ rows : List HierRow, rows ≠ [] → 0 < lc → 0 < sc →
      run_conversion (some rows) lc sc 0 = true) := by
  refine ⟨?_, ?_, ?_⟩
  · cases fr with
    | none => rfl
    | some rows => simp [run_conversion]
  · cases fr with
    | none => rfl
    | some rows => simp [run_conversion]
  · intro rows hrows hlc hsc
    have h1 : lc ≠ 0 := by omega
    have h2 : sc ≠ 0 := by omega
    simp [run_conversion, List.length_eq_zero, hrows, h1, h2]

/-- Witness for C5: one object row, counts `(1, 1, 0)` — the run succeeds
even though the building stage returned zero. -/
theorem C5_zero_count_abort_witness :
    ([⟨1, "p", true⟩] : List HierRow) ≠ [] ∧ 0 < 1 ∧
    run_conversion (some [⟨1, "p", true⟩]) 1 1 0 = true :=
  ⟨by decide, by decide,
    (C5_zero_count_abort (some [⟨1, "p", true⟩]) 1 1 0).2.2 _ (by decide)
      (by decide) (by decide)⟩

/-- C10: database errors bypass the retry loop — `execute_query` swallows
an `SQLAlchemyError` into `None`, so `execute_with_retry` returns that
`None` after exactly one attempt with no sleep and no re-raise, and
`run_conversion` treats the `None` fetch as a stage failure, not an
exception. -/
theorem C10_db_errors_bypass_retry {A : Type} (seq : Nat → DbOutcome A)
    (msg : String) (h : seq 0 = DbOutcome.sqlAlchemyError msg) :
    execute_with_retry (fun i => execute_query (seq i)) 3 =
      ⟨RetryOutcome.ok none, 1, 0⟩ ∧
    (∀ lc sc bc, run_conversion none lc sc bc = false) := by
  constructor
  · simp [execute_with_retry, retryGo, execute_query, h]
  · intro lc sc bc
    rfl

/-- Witness for C10: a query whose first attempt hits an `SQLAlchemyError`
yields `None` after one attempt, and the orchestrator reports failure. -/
theorem C10_db_errors_bypass_retry_witness :
    execute_with_retry
        (fun i => execute_query
          ((fun _ => (DbOutcome.sqlAlchemyError "boom" : DbOutcome Nat)) i)) 3 =
      ⟨RetryOutcome.ok none, 1, 0⟩ ∧
    run_conversion none 5 5 0 = false :=
  ⟨(C10_db_errors_bypass_retry
      (fun _ => (DbOutcome.sqlAlchemyError "boom" : DbOutcome Nat)) "boom" rfl).1,
   (C10_db_errors_bypass_retry
      (fun _ => (DbOutcome.sqlAlchemyError "boom" : DbOutcome Nat)) "boom" rfl).2
     5 5 0⟩

theorem C9_path_decoding_witness :
    strStarts "1.2" "1.2.3.4.5" = true ∧
    depthOf "1.2.3.4.5" "1.2" =
      Except.ok ((octets "1.2.3.4.5").length - (octets "1.2").length) ∧
    (octets "1.2.3").length < 7 ∧
    octetAt "1.2.3" 7 = Except.error PathError.outOfRange := by
  refine ⟨by decide, C9_path_decoding.1 _ _ (by decide), by decide,
    C9_path_decoding.2.2 "1.2.3" 7 (by decide)⟩

theorem upsertBy_length_of_mem {α : Type} (key : α → Nat) (t : List α)
    (r : α) (h : key r ∈ t.map key) :
    (upsertBy key t r).length = t.length := by
  obtain ⟨x, hx, hkey⟩ := List.mem_map.mp h
  have hany : t.any (fun y => key y == key r) = true :=
    List.any_eq_true.mpr ⟨x, hx, beq_iff_eq.mpr hkey⟩
  simp [upsertBy, hany]

theorem keys_upsertBy_of_mem {α : Type} (key : α → Nat) (t : List α)
    (r : α) (h : key r ∈ t.map key) :
    (upsertBy key t r).map key = t.map key := by
  obtain ⟨x, hx, hkey⟩ := List.mem_map.mp h
  have hany : t.any (fun y => key y == key r) = true :=
    List.any_eq_true.mpr ⟨x, hx, beq_iff_eq.mpr hkey⟩
  simp only [upsertBy, hany, if_true, List.map_map]
  apply List.map_congr_left
  intro y _
  by_cases hy : key y = key r
  · simp [hy]
  · simp [hy]

theorem keys_upsertBy_of_not_mem {α : Type} (key : α → Nat) (t : List α)
    (r : α) (h : key r ∉ t.map key) :
    (upsertBy key t r).map key = t.map key ++ [key r] := by
  have hany : t.any (fun y => key y == key r) = false := by
    rw [← Bool.not_eq_true, List.any_eq_true]
    rintro ⟨x, hx, hkey⟩
    exact h (List.mem_map.mpr ⟨x, hx, (beq_iff_eq.mp hkey)⟩)
  simp [upsertBy, hany]

theorem mem_keys_upsertBy_mono {α : Type} (key : α → Nat) (t : List α)
    (r : α) (a : Nat) (h : a ∈ t.map key) :
    a ∈ (upsertBy key t r).map key := by
  by_cases hr : key r ∈ t.map key
  · rw [keys_upsertBy_of_mem key t r hr]; exact h
  · rw [keys_upsertBy_of_not_mem key t r hr]; exact List.mem_append_left _ h

theorem mem_keys_upsertBy_self {α : Type} (key : α → Nat) (t : List α)
    (r : α) : key r ∈ (upsertBy key t r).map key := by
  by_cases hr : key r ∈ t.map key
  · rw [keys_upsertBy_of_mem key t r hr]; exact hr
  · rw [keys_upsertBy_of_not_mem key t r hr]
    exact List.mem_append_right _ (List.mem_singleton.mpr rfl)

theorem nodup_keys_upsertBy {α : Type} (key : α → Nat) (t : List α)
    (r : α) (h : (t.map key).Nodup) :
    ((upsertBy key t r).map key).Nodup := by
  by_cases hr : key r ∈ t.map key
  · rw [keys_upsertBy_of_mem key t r hr]; exact h
  · rw [keys_upsertBy_of_not_mem key t r hr]
    simp [List.nodup_append, h, hr]

theorem mem_keys_upsertBatchBy_mono {α : Type} (key : α → Nat)
    (rs : List α) (t : List α) (a : Nat) (h : a ∈ t.map key) :
    a ∈ (upsertBatchBy key t rs).map key := by
  induction rs generalizing t with
  | nil => exact h
  | cons r rs ih => exact ih _ (mem_keys_upsertBy_mono key t r a h)

theorem mem_keys_upsertBatchBy {α : Type} (key : α → Nat) (rs : List α)
    (t : List α) (r : α) (hr : r ∈ rs) :
    key r ∈ (upsertBatchBy key t rs).map key := by
  induction rs generalizing t with
  | nil => exact absurd hr (List.not_mem_nil r)
  | cons r0 rs ih =>
    rcases List.mem_cons.mp hr with h | h
    · subst h
      rcases rs with _ | ⟨r1, rs⟩
      · exact mem_keys_upsertBy_self key t r
      · exact mem_keys_upsertBatchBy_mono key (r1 :: rs) _ _
          (mem_keys_upsertBy_self key t r)
    · exact ih _ h

theorem upsertBatchBy_length_of_all_mem {α : Type} (key : α → Nat)
    (rs : List α) (t : List α) (h : ∀ r ∈ rs, key r ∈ t.map key) :
    (upsertBatchBy key t rs).length = t.length := by
  induction rs generalizing t with
  | nil => rfl
  | cons r rs ih =>
    have hr : key r ∈ t.map key := h r (List.mem_cons_self r rs)
    have step : (upsertBatchBy key t (r :: rs)) =
        upsertBatchBy key (upsertBy key t r) rs := rfl
    rw [step, ih _ (fun r' hr' =>
      mem_keys_upsertBy_mono key t r _ (h r' (List.mem_cons_of_mem r hr'))),
      upsertBy_length_of_mem key t r hr]

theorem nodup_keys_upsertBatchBy {α : Type} (key : α → Nat) (rs : List α)
    (t : List α) (h : (t.map key).Nodup) :
    ((upsertBatchBy key t rs).map key).Nodup := by
  induction rs generalizing t with
  | nil => exact h
  | cons r rs ih => exact ih _ (nodup_keys_upsertBy key t r h)

theorem upsert_rerun {α : Type} (key : α → Nat) (t : List α) (rs : List α)
    (h : (t.map key).Nodup) :
    (upsertBatchBy key (upsertBatchBy key t rs) rs).length =
      (upsertBatchBy key t rs).length ∧
    ((upsertBatchBy key (upsertBatchBy key t rs) rs).map key).Nodup := by
  constructor
  · exact upsertBatchBy_length_of_all_mem key rs _
      (fun r hr => mem_keys_upsertBatchBy key rs t r hr)
  · exact nodup_keys_upsertBatchBy key rs _ (nodup_keys_upsertBatchBy key rs t h)

/-- C1: idempotent re-run — with `objectid` unique in each target table,
replaying the very same batch of upserts leaves each table's row count
unchanged and keeps `objectid` unique, for localities, streets and
buildings alike. -/
theorem C1_idempotent_rerun (lt ls : List LocalityRow)
    (st ss : List StreetRow) (bt bs : List BuildingRow)
    (hl : (lt.map LocalityRow.objectid).Nodup)
    (hs : (st.map StreetRow.objectid).Nodup)
    (hb : (bt.map BuildingRow.objectid).Nodup) :
    ((upsertBatchBy LocalityRow.objectid
        (upsertBatchBy LocalityRow.objectid lt ls) ls).length =
      (upsertBatchBy LocalityRow.objectid lt ls).length ∧
     ((upsertBatchBy LocalityRow.objectid
        (upsertBatchBy LocalityRow.objectid lt ls) ls).map
          LocalityRow.objectid).Nodup) ∧
    ((upsertBatchBy StreetRow.objectid
        (upsertBatchBy StreetRow.objectid st ss) ss).length =
      (upsertBatchBy StreetRow.objectid st ss).length ∧
     ((upsertBatchBy StreetRow.objectid
        (upsertBatchBy StreetRow.objectid st ss) ss).map
          StreetRow.objectid).Nodup) ∧
    ((upsertBatchBy BuildingRow.objectid
        (upsertBatchBy BuildingRow.objectid bt bs) bs).length =
      (upsertBatchBy BuildingRow.objectid bt bs).length ∧
     ((upsertBatchBy BuildingRow.objectid
        (upsertBatchBy BuildingRow.objectid bt bs) bs).map
          BuildingRow.objectid).Nodup) :=
  ⟨upsert_rerun LocalityRow.objectid lt ls hl,
   upsert_rerun StreetRow.objectid st ss hs,
   upsert_rerun BuildingRow.objectid bt bs hb⟩

/-- Witness for C1: an already-populated locality table and a batch that
both updates an existing `objectid` and inserts a new one; street and
building tables start empty. -/
theorem C1_idempotent_rerun_witness :
    (([⟨1, "g1", "n1", "t1", "p1"⟩] : List LocalityRow).map
        LocalityRow.objectid).Nodup ∧
    ((([] : List StreetRow)).map StreetRow.objectid).Nodup ∧
    ((([] : List BuildingRow)).map BuildingRow.objectid).Nodup ∧
    ((upsertBatchBy LocalityRow.objectid
        (upsertBatchBy LocalityRow.objectid [⟨1, "g1", "n1", "t1", "p1"⟩]
          [⟨1, "g1b", "n1b", "t1b", "p1b"⟩, ⟨2, "g2", "n2", "t2", "p2"⟩])
        [⟨1, "g1b", "n1b", "t1b", "p1b"⟩, ⟨2, "g2", "n2", "t2", "p2"⟩]).length =
      (upsertBatchBy LocalityRow.objectid [⟨1, "g1", "n1", "t1", "p1"⟩]
        [⟨1, "g1b", "n1b", "t1b", "p1b"⟩, ⟨2, "g2", "n2", "t2", "p2"⟩]).length) :=
  ⟨by decide, by decide, by decide,
    (C1_idempotent_rerun [⟨1, "g1", "n1", "t1", "p1"⟩]
      [⟨1, "g1b", "n1b", "t1b", "p1b"⟩, ⟨2, "g2", "n2", "t2", "p2"⟩]
      [] [] [] [] (by decide) (by decide) (by decide)).1.1⟩

/-- C6, counterexample to the claimed depth-4 input: the hierarchy row with
path `"1.2.3.4"` under base `"1.2"` is active, sits exactly at the street
level (octet 4), and its locality `"3"` is in the target map, yet the
street stage's pattern `'<basePath>.%.%.%'` demands at least three octets
beyond the base, so the row matches nothing and the stage input is empty —
a street with no building descendants is silently never converted. -/
theorem C6_depth4_counterexample :
    (⟨7, "1.2.3.4", true⟩ : HierRow).isactive = true ∧
    octets "1.2.3.4" = ["1", "2", "3", "4"] ∧
    sqlOctet "1.2.3.4" 3 = "3" ∧
    sqlOctet "1.2.3.4" 4 = "4" ∧
    (([("3", 1)] : List (String × Nat)).lookup "3").isSome = true ∧
    likeBaseThreeDeep "1.2" "1.2.3.4" = false ∧
    streetStageInput "1.2" [⟨7, "1.2.3.4", true⟩] [("3", 1)] = [] := by
  decide

/-- C6 (amended): street-stage input filter — the stage's input is exactly
the distinct `(locality octet, street octet)` pairs of active hierarchy
rows matching the `'<basePath>.%.%.%'` pattern (at least three octets
beyond the base, i.e. building-level paths and deeper, not street-level
depth-4 paths) whose locality id is a key of the locality map; a pair whose
locality is absent from the map never reaches the input, and the street
writer only ever writes rows whose id is a key of its map. -/
theorem C6_street_input_filter (basePath : String) (rows : List HierRow)
    (locMap : List (String × Nat)) :
    (∀ p, p ∈ streetStageInput basePath rows locMap ↔
      p ∈ streetPairsRaw basePath rows ∧ (locMap.lookup p.1).isSome = true) ∧
    (∀ p, p ∈ streetPairsRaw basePath rows ↔
      ∃ r ∈ rows, r.isactive = true ∧
        likeBaseThreeDeep basePath r.path = true ∧
        p = (sqlOctet r.path 3, sqlOctet r.path 4)) ∧
    (∀ (fetched : List AddrRow) (locIds : List (String × Nat))
        (row : StreetRow),
      row ∈ process_street_batch_records fetched locIds →
      (locIds.lookup (toString row.objectid)).isSome = true) := by
  refine ⟨?_, ?_, ?_⟩
  · intro p
    simp [streetStageInput, List.mem_filter]
  · intro p
    simp only [streetPairsRaw, List.mem_dedup, List.mem_map, List.mem_filter,
      Bool.and_eq_true]
    constructor
    · rintro ⟨r, ⟨hr, ha, hl⟩, hp⟩
      exact ⟨r, hr, ha, hl, hp.symm⟩
    · rintro ⟨r, hr, ha, hl, hp⟩
      exact ⟨r, ⟨hr, ha, hl⟩, hp.symm⟩
  · intro fetched locIds row hrow
    obtain ⟨st, hst, hf⟩ := List.mem_filterMap.mp hrow
    rcases hlook : locIds.lookup (toString st.objectid) with _ | lid
    · rw [hlook] at hf
      exact absurd hf (by simp)
    · rw [hlook] at hf
      have hrec : (⟨st.objectid, lid, st.objectguid, st.name, st.typename,
          st.path⟩ : StreetRow) = row := Option.some.inj hf
      rw [← hrec]
      simp [hlook]

/-- Witness for C6: one active hierarchy row three octets below the base
yields the pair `("3", "4")`; with locality `"3"` in the map the pair is
kept, and a fetched street row with its id in the writer map is written. -/
theorem C6_street_input_filter_witness :
    (⟨5, 9, "g", "n", "t", "1.2.3.5"⟩ : StreetRow) ∈
      process_street_batch_records [⟨5, "g", "n", "t", "1.2.3.5"⟩]
        [("5", 9)] ∧
    (([("5", 9)] : List (String × Nat)).lookup
      (toString (⟨5, 9, "g", "n", "t", "1.2.3.5"⟩ : StreetRow).objectid)).isSome
        = true :=
  ⟨by decide,
    (C6_street_input_filter "1.2" [⟨7, "1.2.3.4.5", true⟩] [("3", 1)]).2.2
      [⟨5, "g", "n", "t", "1.2.3.5"⟩] [("5", 9)]
      ⟨5, 9, "g", "n", "t", "1.2.3.5"⟩ (by decide)⟩

/-- C7: reconciliation determinism — the synthesized locality's typename
follows the parent-typename heuristic (lowercased containment of "город",
then "район", else the generic locality type), the parent path is all
octets but the last, a missing name becomes `"Объект <id>"`, and a missing
GUID becomes the zero-UUID placeholder with the 12-digit zero-padded id. -/
theorem C7_reconciliation_determinism (p : ParentRec) (oid : Nat)
    (path : String) (nr gr : Option String) :
    parentPath path = joinDot ((octets path).dropLast) ∧
    (containsSub (lowerStr p.typename) "город" = true →
      (synthesizeLocality oid path (some p) nr gr).typename = "микрорайон") ∧
    (containsSub (lowerStr p.typename) "город" = false →
      containsSub (lowerStr p.typename) "район" = true →
      (synthesizeLocality oid path (some p) nr gr).typename = "поселок") ∧
    (containsSub (lowerStr p.typename) "город" = false →
      containsSub (lowerStr p.typename) "район" = false →
      (synthesizeLocality oid path (some p) nr gr).typename =
        "населенный пункт") ∧
    (synthesizeLocality oid path (some p) none gr).name =
      "Объект " ++ toString oid ∧
    (synthesizeLocality oid path (some p) nr none).objectguid =
      "00000000-0000-0000-0000-" ++ pad12 oid := by
  refine ⟨rfl, ?_, ?_, ?_, rfl, rfl⟩
  · intro h1
    simp [synthesizeLocality, inferTypename, h1]
  · intro h1 h2
    simp [synthesizeLocality, inferTypename, h1, h2]
  · intro h1 h2
    simp [synthesizeLocality, inferTypename, h1, h2]

/-- Witness for C7: parent typename `"Город"` (lowercased to `"город"`)
gives `"микрорайон"`, and with no `addr_obj` GUID the placeholder embeds
id 42 zero-padded to 12 digits. -/
theorem C7_reconciliation_determinism_witness :
    containsSub (lowerStr "Город") "город" = true ∧
    (synthesizeLocality 42 "1.2.3" (some ⟨"Артем", "Город"⟩) none
      none).typename = "микрорайон" ∧
    (synthesizeLocality 42 "1.2.3" (some ⟨"Артем", "Город"⟩) none
      none).objectguid = "00000000-0000-0000-0000-" ++ pad12 42 :=
  ⟨by decide,
    (C7_reconciliation_determinism ⟨"Артем", "Город"⟩ 42 "1.2.3" none
      none).2.1 (by decide),
    (C7_reconciliation_determinism ⟨"Артем", "Город"⟩ 42 "1.2.3" none
      none).2.2.2.2.2⟩

/-- C8: building field mapping — every record the building writer emits
comes from a fetched house row with the same `objectid`; null house and
secondary numbers become empty strings, `housetype` passes through
unchanged, and `street_id` is the map's target row id for that building. -/
theorem C8_building_field_mapping (fetched : List HouseRow)
    (streetIds : List (String × Nat)) (rec : BuildingRow)
    (h : rec ∈ process_building_batch_records fetched streetIds) :
    ∃ b ∈ fetched,
      rec.objectid = b.objectid ∧
      rec.objectguid = b.objectguid ∧
      rec.house_num = b.housenum.getD "" ∧
      rec.add_num1 = b.addnum1.getD "" ∧
      rec.add_num2 = b.addnum2.getD "" ∧
      (b.housenum = none → rec.house_num = "") ∧
      (b.addnum1 = none → rec.add_num1 = "") ∧
      (b.addnum2 = none → rec.add_num2 = "") ∧
      rec.housetype = b.housetype ∧
      rec.path_octets = b.path ∧
      streetIds.lookup (toString b.objectid) = some rec.street_id := by
  obtain ⟨b, hb, hf⟩ := List.mem_filterMap.mp h
  rcases hlook : streetIds.lookup (toString b.objectid) with _ | sid
  · rw [hlook] at hf
    exact absurd hf (by simp)
  · rw [hlook] at hf
    have hrec := Option.some.inj hf
    subst hrec
    exact ⟨b, hb, rfl, rfl, rfl, rfl, rfl,
      fun hn => by simp [hn], fun hn => by simp [hn], fun hn => by simp [hn],
      rfl, rfl, hlook⟩

/-- Witness for C8: one fetched house row with null house number and null
first secondary number; the emitted record has empty strings there, keeps
`housetype = some 2`, and takes `street_id = 7` from the map. -/
theorem C8_building_field_mapping_witness :
    (⟨1, 7, "g", "", "", "к1", some 2, "1.2.3.4.1"⟩ : BuildingRow) ∈
      process_building_batch_records
        [⟨1, "g", none, some 2, none, some "к1", "1.2.3.4.1"⟩] [("1", 7)] ∧
    ∃ b ∈ ([⟨1, "g", none, some 2, none, some "к1", "1.2.3.4.1"⟩] :
        List HouseRow),
      (⟨1, 7, "g", "", "", "к1", some 2, "1.2.3.4.1"⟩ :
          BuildingRow).objectid = b.objectid ∧
      (⟨1, 7, "g", "", "", "к1", some 2, "1.2.3.4.1"⟩ :
          BuildingRow).objectguid = b.objectguid ∧
      (⟨1, 7, "g", "", "", "к1", some 2, "1.2.3.4.1"⟩ :
          BuildingRow).house_num = b.housenum.getD "" ∧
      (⟨1, 7, "g", "", "", "к1", some 2, "1.2.3.4.1"⟩ :
          BuildingRow).add_num1 = b.addnum1.getD "" ∧
      (⟨1, 7, "g", "", "", "к1", some 2, "1.2.3.4.1"⟩ :
          BuildingRow).add_num2 = b.addnum2.getD "" ∧
      (b.housenum = none →
        (⟨1, 7, "g", "", "", "к1", some 2, "1.2.3.4.1"⟩ :
          BuildingRow).house_num = "") ∧
      (b.addnum1 = none →
        (⟨1, 7, "g", "", "", "к1", some 2, "1.2.3.4.1"⟩ :
          BuildingRow).add_num1 = "") ∧
      (b.addnum2 = none →
        (⟨1, 7, "g", "", "", "к1", some 2, "1.2.3.4.1"⟩ :
          BuildingRow).add_num2 = "") ∧
      (⟨1, 7, "g", "", "", "к1", some 2, "1.2.3.4.1"⟩ :
          BuildingRow).housetype = b.housetype ∧
      (⟨1, 7, "g", "", "", "к1", some 2, "1.2.3.4.1"⟩ :
          BuildingRow).path_octets = b.path ∧
      ([("1", 7)] : List (String × Nat)).lookup (toString b.objectid) =
        some (⟨1, 7, "g", "", "", "к1", some 2, "1.2.3.4.1"⟩ :
          BuildingRow).street_id :=
  ⟨by decide,
    C8_building_field_mapping
      [⟨1, "g", none, some 2, none, some "к1", "1.2.3.4.1"⟩] [("1", 7)]
      ⟨1, 7, "g", "", "", "к1", some 2, "1.2.3.4.1"⟩ (by decide)⟩

end Gar
